import Mathlib

/-!
Shallow embedding of the teo-agent-ia repository (invoice automation agent,
audio transcription agent, Telegram session/command router) together with
proofs about the properties stated in its specification.

Conventions:
* JavaScript strings that undergo character-level manipulation (command
  parsing, file-path extension handling, subtitle rendering) are modelled as
  `List Char`; strings that are only passed around are `String`.
* Outcomes of external calls (network, browser, LLM invocations) are inputs
  to the model, supplied through environment structures.
* A thrown JavaScript error is an `Except.error` / explicit `thrown` value.
-/

/-! ## Backend fallback chain (src/agents/invoiceAgent.js, transcription part) -/

/-- Result shape returned by each `transcribeWith*` function:
`{ success, text, error, service }` (absent JS fields modelled as `""`). -/
structure BackendResult where
  success : Bool
  text : String
  error : String
  service : String
deriving DecidableEq, Repr

/-- The three transcription backends, in the order the agent tries them. -/
inductive Backend where
  | localWhisper
  | groqWhisper
  | openaiWhisper
deriving DecidableEq, Repr

/-- External outcomes for one chain run: whether each cloud backend would
succeed, the text or error it would produce, and whether
`process.env.OPENAI_API_KEY` is configured. -/
structure ChainEnv where
  groqSucceeds : Bool
  groqText : String
  groqError : String
  openaiSucceeds : Bool
  openaiText : String
  openaiError : String
  hasOpenAIKey : Bool
deriving DecidableEq, Repr

/-- `transcribeWithLocalWhisper`: the source is a stub that always returns
`{ success: false, error: "Local whisper not available" }`. -/
def transcribeWithLocalWhisper : BackendResult :=
  { success := false, text := "", error := "Local whisper not available", service := "" }

/-- `transcribeWithGroqWhisper`: returns `{ success: true, text, service: 'groq-whisper' }`
or `{ success: false, error, service: 'groq-whisper' }`. -/
def transcribeWithGroqWhisper (env : ChainEnv) : BackendResult :=
  if env.groqSucceeds then
    { success := true, text := env.groqText, error := "", service := "groq-whisper" }
  else
    { success := false, text := "", error := env.groqError, service := "groq-whisper" }

/-- `transcribeWithOpenAIWhisper`, analogous to the Groq backend. -/
def transcribeWithOpenAIWhisper (env : ChainEnv) : BackendResult :=
  if env.openaiSucceeds then
    { success := true, text := env.openaiText, error := "", service := "openai-whisper" }
  else
    { success := false, text := "", error := env.openaiError, service := "openai-whisper" }

/-- Outcome of one run of the transcription fallback chain. -/
inductive ChainOutcome where
  | ok (text service : String)
  | thrown (msg : String)
deriving DecidableEq, Repr

/-- The fallback chain of `transcriptionAgent` (lines 414-432): try local,
then Groq if not successful, then OpenAI if still not successful and the
OpenAI key is configured; throw `Transcription failed: <error>` when the
final attempt is unsuccessful.  The first component records which backends
were invoked, in order. -/
def runChain (env : ChainEnv) : List Backend × ChainOutcome :=
  let r0 := transcribeWithLocalWhisper
  let t0 := [Backend.localWhisper]
  let s1 := if !r0.success then (t0 ++ [Backend.groqWhisper], transcribeWithGroqWhisper env)
            else (t0, r0)
  let s2 := if !s1.2.success && env.hasOpenAIKey then
              (s1.1 ++ [Backend.openaiWhisper], transcribeWithOpenAIWhisper env)
            else s1
  if !s2.2.success then (s2.1, ChainOutcome.thrown ("Transcription failed: " ++ s2.2.error))
  else (s2.1, ChainOutcome.ok s2.2.text s2.2.service)

/-! ## Audio file validation (validateAudioFile) -/

/-- Character-level lowercase map, modelling JS `toLowerCase` on the
ASCII extensions that occur here. -/
def toLowerChars (s : List Char) : List Char := s.map Char.toLower

/-- Last index at which `c` occurs in `s`, if any. -/
def lastIndexOfChar (c : Char) (s : List Char) : Option Nat :=
  s.foldl (fun (acc : Option Nat × Nat) ch =>
    (if ch = c then some acc.2 else acc.1, acc.2 + 1)) (none, 0) |>.1

/-- Portion of a path after the last `/`, as in Node `path.basename`. -/
def pathBasename (p : List Char) : List Char :=
  match lastIndexOfChar '/' p with
  | none => p
  | some i => p.drop (i + 1)

/-- Node `path.extname`: the suffix of the basename from its last `.`,
empty when there is no dot or the only dot is the leading character. -/
def pathExtname (p : List Char) : List Char :=
  let b := pathBasename p
  match lastIndexOfChar '.' b with
  | none => []
  | some i => if i = 0 then [] else b.drop i

/-- The accepted audio extensions from `validateAudioFile`. -/
def supportedExtensions : List (List Char) :=
  [".mp3".toList, ".wav".toList, ".m4a".toList, ".mp4".toList, ".webm".toList, ".ogg".toList]

/-- The 25 MiB size limit from `validateAudioFile`. -/
def maxAudioSize : Nat := 25 * 1024 * 1024

/-- `validateAudioFile(filePath)`: `statSize` is the size reported by
`fs.stat` (`none` when `stat` throws, e.g. missing file).  The extension is
checked first, then the size; any thrown error is caught and surfaced as an
invalid result carrying the message. -/
def validateAudioFile (filePath : List Char) (statSize : Option Nat) :
    Except String (Nat × List Char) :=
  match statSize with
  | none => Except.error "stat failed"
  | some size =>
    let extension := toLowerChars (pathExtname filePath)
    if !(supportedExtensions.contains extension) then
      Except.error ("Unsupported file format: " ++ String.mk extension)
    else if maxAudioSize < size then
      Except.error "File too large. Maximum size is 25MB"
    else
      Except.ok (size, extension)

/-- Whether a validation result is the valid case. -/
def validationPasses (r : Except String (Nat × List Char)) : Bool :=
  match r with
  | Except.ok _ => true
  | Except.error _ => false

/-- `transcriptionAgent` up to the end of the fallback chain: the audio file
is validated first and a failed validation throws
`File validation failed: <error>` before any backend is invoked. -/
def transcriptionAgentRun (filePath : List Char) (statSize : Option Nat)
    (env : ChainEnv) : List Backend × ChainOutcome :=
  match validateAudioFile filePath statSize with
  | Except.error e => ([], ChainOutcome.thrown ("File validation failed: " ++ e))
  | Except.ok _ => runChain env

/-! ## C1 and C7 theorems -/

/-- C1: one run of the fallback chain invokes backends in ascending priority
order (local, then Groq, then OpenAI only when its key is configured), stops
at the first success returning that backend's identity without invoking any
later backend, invokes no backend twice, and on exhaustion throws an error
carrying the last invoked backend's failure reason. -/
theorem transcription_chain_fallback (env : ChainEnv) :
    ((runChain env).1 =
      [Backend.localWhisper, Backend.groqWhisper] ++
        (if env.groqSucceeds = false ∧ env.hasOpenAIKey = true then [Backend.openaiWhisper] else [])) ∧
    (runChain env).1.Nodup ∧
    (env.groqSucceeds = true →
      (runChain env).2 = ChainOutcome.ok env.groqText "groq-whisper" ∧
      Backend.openaiWhisper ∉ (runChain env).1) ∧
    (env.groqSucceeds = false → env.hasOpenAIKey = true → env.openaiSucceeds = true →
      (runChain env).2 = ChainOutcome.ok env.openaiText "openai-whisper") ∧
    (env.groqSucceeds = false → env.hasOpenAIKey = false →
      (runChain env).2 = ChainOutcome.thrown ("Transcription failed: " ++ env.groqError) ∧
      (runChain env).1.getLast? = some Backend.groqWhisper) ∧
    (env.groqSucceeds = false → env.hasOpenAIKey = true → env.openaiSucceeds = false →
      (runChain env).2 = ChainOutcome.thrown ("Transcription failed: " ++ env.openaiError) ∧
      (runChain env).1.getLast? = some Backend.openaiWhisper) := by
  obtain ⟨g, gt, ge, o, ot, oe, k⟩ := env
  cases g <;> cases k <;> cases o <;>
    simp [runChain, transcribeWithLocalWhisper, transcribeWithGroqWhisper,
      transcribeWithOpenAIWhisper]

/-- Witness for C1: with Groq failing and no OpenAI key, the chain is
exhausted carrying the Groq failure reason, Groq being the last backend. -/
theorem transcription_chain_fallback_witness :
    (runChain ⟨false, "", "g", false, "", "o", false⟩).2 =
      ChainOutcome.thrown ("Transcription failed: " ++ "g") ∧
    (runChain ⟨false, "", "g", false, "", "o", false⟩).1.getLast? = some Backend.groqWhisper :=
  (transcription_chain_fallback ⟨false, "", "g", false, "", "o", false⟩).2.2.2.2.1 rfl rfl

/-- C7: a file above 25 MiB is rejected, a file with an unsupported
extension is rejected, a rejected file causes `transcriptionAgent` to invoke
no transcription backend at all, and a 2 MiB `.mp3` file is accepted. -/
theorem validateAudioFile_spec :
    (∀ (filePath : List Char) (size : Nat), maxAudioSize < size →
      validationPasses (validateAudioFile filePath (some size)) = false) ∧
    (∀ (filePath : List Char) (size : Nat),
      toLowerChars (pathExtname filePath) ∉ supportedExtensions →
      validationPasses (validateAudioFile filePath (some size)) = false) ∧
    (∀ (filePath : List Char) (statSize : Option Nat) (env : ChainEnv),
      validationPasses (validateAudioFile filePath statSize) = false →
      (transcriptionAgentRun filePath statSize env).1 = []) ∧
    validationPasses (validateAudioFile "voice.mp3".toList (some (2 * 1024 * 1024))) = true := by
  refine ⟨?_, ?_, ?_, ?_⟩
  · intro p size h
    by_cases hc : toLowerChars (pathExtname p) ∈ supportedExtensions <;>
      simp [validateAudioFile, validationPasses, hc, h]
  · intro p size h
    simp [validateAudioFile, validationPasses, h]
  · intro p s env h
    unfold transcriptionAgentRun
    cases hv : validateAudioFile p s with
    | error e => rfl
    | ok v => rw [hv] at h; simp [validationPasses] at h
  · rfl

/-- Witness for C7: a 30 MiB file is rejected, a `.pdf` file is rejected,
and the rejected `.pdf` file leads to an empty backend invocation list. -/
theorem validateAudioFile_spec_witness :
    validationPasses (validateAudioFile "big.mp3".toList (some (30 * 1024 * 1024))) = false ∧
    validationPasses (validateAudioFile "doc.pdf".toList (some 100)) = false ∧
    (transcriptionAgentRun "doc.pdf".toList (some 100) ⟨true, "t", "", true, "", "", true⟩).1 = [] :=
  ⟨validateAudioFile_spec.1 _ _ (by decide),
   validateAudioFile_spec.2.1 _ _ (by decide),
   validateAudioFile_spec.2.2.1 _ _ _ (validateAudioFile_spec.2.1 _ _ (by decide))⟩

/-! ## Invoice automation pipeline (src/agents/invoiceAgent.js, invoiceAgent) -/

/-- Outcome of one external call: either the JS call threw, or it returned a
value (for classifier calls the value is `none` when the structured result is
absent or lacks the required field). -/
inductive CallRes (α : Type) where
  | thrown (msg : String)
  | value (v : α)
deriving DecidableEq, Repr

/-- The invoice record assembled from the table classifier,
`{ expirationDate, amount, facturaId }`. -/
structure InvoiceRecord where
  expirationDate : String
  amount : String
  facturaId : String
deriving DecidableEq, Repr

/-- Observable events of one `invoiceAgent` run.  Each `classify*` event is
one invocation of the LLM classifier, carrying the candidate snapshot that
was serialised into the prompt. -/
inductive PipelineEvent where
  | navigate
  | classifyUsername (candidates : List String)
  | classifyPassword (candidates : List String)
  | classifyLogin (candidates : List String)
  | classifyFactura (candidates : List String)
  | classifyTable
  | clickLoginBtn
  | clickFacturaBtn
  | downloadStep
deriving DecidableEq, Repr

/-- External outcomes of one `invoiceAgent` run: tool results (the tools
catch their own errors and return success flags plus element lists),
classifier results, click/navigation/download outcomes, and the
`dowloadFile` parameter. -/
structure RunEnv where
  hasUrl : Bool
  nav : CallRes Unit
  inputIds : List String
  userResult : CallRes (Option String)
  passResult : CallRes (Option String)
  buttonsSuccess : Bool
  buttons : List String
  loginResult : CallRes (Option String)
  clickLogin : CallRes Unit
  anchorsSuccess : Bool
  anchors : List String
  facturaResult : CallRes (Option String)
  clickFactura : CallRes Unit
  tableSuccess : Bool
  tableResult : CallRes (Option InvoiceRecord)
  download : CallRes Unit
  dowloadFile : Bool
deriving DecidableEq, Repr

/-- Download stage (lines 205-226): reading `invoiceResult.facturaId` on a
null record throws a TypeError; otherwise the download race and `saveAs`
run, and the record is returned. -/
def stageDownload (env : RunEnv) (inv : Option InvoiceRecord) :
    List PipelineEvent × Except String (Option InvoiceRecord) :=
  if env.dowloadFile then
    match inv with
    | none => ([], Except.error "TypeError: cannot read facturaId of null")
    | some rec =>
      match env.download with
      | CallRes.thrown m => ([PipelineEvent.downloadStep], Except.error m)
      | CallRes.value _ => ([PipelineEvent.downloadStep], Except.ok (some rec))
  else ([], Except.ok inv)

/-- Table stage (lines 176-203): when `getTable` succeeds the table
classifier is invoked; a null result throws; when `getTable` fails the run
continues with a null invoice record. -/
def stageTable (env : RunEnv) : List PipelineEvent × Except String (Option InvoiceRecord) :=
  if env.tableSuccess then
    match env.tableResult with
    | CallRes.thrown m => ([PipelineEvent.classifyTable], Except.error m)
    | CallRes.value none =>
      ([PipelineEvent.classifyTable], Except.error "No factura button detected by LLM.")
    | CallRes.value (some rec) =>
      let rest := stageDownload env (some rec)
      (PipelineEvent.classifyTable :: rest.1, rest.2)
  else stageDownload env none

/-- Invoice-link stage (lines 152-175): when `getAnchorElements` succeeds
the classifier is invoked on the anchor snapshot; an absent result throws
`No factura button detected by LLM.`; when anchor gathering fails the whole
block is skipped and the run continues. -/
def stageFactura (env : RunEnv) : List PipelineEvent × Except String (Option InvoiceRecord) :=
  if env.anchorsSuccess then
    match env.facturaResult with
    | CallRes.thrown m => ([PipelineEvent.classifyFactura env.anchors], Except.error m)
    | CallRes.value none =>
      ([PipelineEvent.classifyFactura env.anchors], Except.error "No factura button detected by LLM.")
    | CallRes.value (some _) =>
      match env.clickFactura with
      | CallRes.thrown m =>
        ([PipelineEvent.classifyFactura env.anchors, PipelineEvent.clickFacturaBtn], Except.error m)
      | CallRes.value _ =>
        let rest := stageTable env
        (PipelineEvent.classifyFactura env.anchors :: PipelineEvent.clickFacturaBtn :: rest.1, rest.2)
  else stageTable env

/-- Login-control stage (lines 123-148): when `getButtonElements` succeeds
the classifier is invoked on the button snapshot; an absent result throws
`No login button detected by LLM.`; when button gathering fails the block is
skipped and the run continues. -/
def stageLogin (env : RunEnv) : List PipelineEvent × Except String (Option InvoiceRecord) :=
  if env.buttonsSuccess then
    match env.loginResult with
    | CallRes.thrown m => ([PipelineEvent.classifyLogin env.buttons], Except.error m)
    | CallRes.value none =>
      ([PipelineEvent.classifyLogin env.buttons], Except.error "No login button detected by LLM.")
    | CallRes.value (some _) =>
      match env.clickLogin with
      | CallRes.thrown m =>
        ([PipelineEvent.classifyLogin env.buttons, PipelineEvent.clickLoginBtn], Except.error m)
      | CallRes.value _ =>
        let rest := stageFactura env
        (PipelineEvent.classifyLogin env.buttons :: PipelineEvent.clickLoginBtn :: rest.1, rest.2)
  else stageFactura env

/-- Password-field stage (lines 106-122): the classifier is invoked on the
input-id snapshot unconditionally; an absent result throws
`No password input ID found in the analysis result.`. -/
def stagePassword (env : RunEnv) : List PipelineEvent × Except String (Option InvoiceRecord) :=
  match env.passResult with
  | CallRes.thrown m => ([PipelineEvent.classifyPassword env.inputIds], Except.error m)
  | CallRes.value none =>
    ([PipelineEvent.classifyPassword env.inputIds],
      Except.error "No password input ID found in the analysis result.")
  | CallRes.value (some _) =>
    let rest := stageLogin env
    (PipelineEvent.classifyPassword env.inputIds :: rest.1, rest.2)

/-- Username-field stage (lines 84-105): `getInputIds` never throws (the
tool catches its own errors, returning `[]`), and the classifier is invoked
on the resulting snapshot unconditionally — there is no emptiness check; an
absent result throws `No username input ID found in the analysis result.`. -/
def stageUsername (env : RunEnv) : List PipelineEvent × Except String (Option InvoiceRecord) :=
  match env.userResult with
  | CallRes.thrown m => ([PipelineEvent.classifyUsername env.inputIds], Except.error m)
  | CallRes.value none =>
    ([PipelineEvent.classifyUsername env.inputIds],
      Except.error "No username input ID found in the analysis result.")
  | CallRes.value (some _) =>
    let rest := stagePassword env
    (PipelineEvent.classifyUsername env.inputIds :: rest.1, rest.2)

/-- The try block of `invoiceAgent` (lines 70-227): URL check, navigation,
then the resolution stages in sequence. -/
def tryBlock (env : RunEnv) : List PipelineEvent × Except String (Option InvoiceRecord) :=
  if env.hasUrl then
    match env.nav with
    | CallRes.thrown m => ([PipelineEvent.navigate], Except.error m)
    | CallRes.value _ =>
      let rest := stageUsername env
      (PipelineEvent.navigate :: rest.1, rest.2)
  else ([], Except.error "No URL provided.")

/-- Observable outcome of one `invoiceAgent` call: the event trace, the
returned value (`none` models both JS `null` and `undefined`), the error
swallowed by the catch block if any, and whether the finally block closed
the browser. -/
structure AgentOutcome where
  trace : List PipelineEvent
  result : Option InvoiceRecord
  caughtError : Option String
  browserClosed : Bool
deriving DecidableEq, Repr

/-- `invoiceAgent` (lines 64-233): run the try block; the catch block logs
the error and falls through (so the function returns `undefined`); the
finally block closes the browser on every path. -/
def invoiceAgentRun (env : RunEnv) : AgentOutcome :=
  match tryBlock env with
  | (tr, Except.error e) =>
    { trace := tr, result := none, caughtError := some e, browserClosed := true }
  | (tr, Except.ok v) =>
    { trace := tr, result := v, caughtError := none, browserClosed := true }

/-! ## Concrete pipeline environments used by witnesses and counterexamples -/

/-- A run environment in which every external call succeeds. -/
def envHappy : RunEnv :=
  { hasUrl := true, nav := CallRes.value (), inputIds := ["user-input", "pass-input"],
    userResult := CallRes.value (some "user-input"), passResult := CallRes.value (some "pass-input"),
    buttonsSuccess := true, buttons := ["Ingresar"], loginResult := CallRes.value (some "Ingresar"),
    clickLogin := CallRes.value (), anchorsSuccess := true, anchors := ["Facturas"],
    facturaResult := CallRes.value (some "Facturas"), clickFactura := CallRes.value (),
    tableSuccess := true, tableResult := CallRes.value (some ⟨"2025-01-01", "100", "F001"⟩),
    download := CallRes.value (), dowloadFile := false }

/-- A run in which `getInputIds` found no input elements at all, yet the
classifier still answers with some element id. -/
def envEmptyCandidates : RunEnv :=
  { envHappy with inputIds := [], userResult := CallRes.value (some "x"),
                  passResult := CallRes.value (some "y") }

/-- A run in which every candidate snapshot (input ids, buttons, anchors)
is empty while the classifiers still answer. -/
def envAllEmpty : RunEnv :=
  { envEmptyCandidates with buttons := [], anchors := [] }

/-- A run in which the invoice-link classifier returns no usable result. -/
def envFacturaMissing : RunEnv :=
  { envHappy with facturaResult := CallRes.value none }

/-- A run in which anchor gathering itself reports failure. -/
def envAnchorsFail : RunEnv :=
  { envHappy with anchorsSuccess := false }

/-- A run in which navigation throws. -/
def envNavFail : RunEnv :=
  { envHappy with nav := CallRes.thrown "net::ERR_NAME_NOT_RESOLVED" }

/-! ## C2, C4, C5, C10 theorems -/

/-- C2 counterexample: with an empty candidate snapshot the username
classifier is still invoked (the event `classifyUsername []` occurs) and no
resolution failure is produced — there is no `NoCandidates` short circuit in
the code. -/
theorem resolver_empty_candidates_cex :
    PipelineEvent.classifyUsername [] ∈ (invoiceAgentRun envEmptyCandidates).trace ∧
    (invoiceAgentRun envEmptyCandidates).caughtError = none := by decide

/-- C2 amended: every resolution step that runs invokes the classifier with
whatever candidate snapshot the tools returned, an empty snapshot included —
the username and password steps with the input-id snapshot, the
login-control step (whenever button gathering succeeded) with the button
snapshot, and the invoice-link step (whenever anchor gathering succeeded)
with the anchor snapshot; no empty-list short circuit exists anywhere. -/
theorem resolver_invoked_even_when_empty (env : RunEnv)
    (h0 : env.hasUrl = true) (h1 : env.nav = CallRes.value ()) :
    (PipelineEvent.classifyUsername env.inputIds ∈ (invoiceAgentRun env).trace) ∧
    (∀ u, env.userResult = CallRes.value (some u) →
      PipelineEvent.classifyPassword env.inputIds ∈ (invoiceAgentRun env).trace) ∧
    (∀ u p, env.userResult = CallRes.value (some u) →
      env.passResult = CallRes.value (some p) → env.buttonsSuccess = true →
      PipelineEvent.classifyLogin env.buttons ∈ (invoiceAgentRun env).trace) ∧
    (∀ u p l, env.userResult = CallRes.value (some u) →
      env.passResult = CallRes.value (some p) → env.buttonsSuccess = true →
      env.loginResult = CallRes.value (some l) → env.clickLogin = CallRes.value () →
      env.anchorsSuccess = true →
      PipelineEvent.classifyFactura env.anchors ∈ (invoiceAgentRun env).trace) := by
  have htr : (invoiceAgentRun env).trace = (tryBlock env).1 := by
    cases htb : tryBlock env with
    | mk tr r => cases r <;> simp [invoiceAgentRun, htb]
  have htb1 : (tryBlock env).1 = PipelineEvent.navigate :: (stageUsername env).1 := by
    unfold tryBlock
    rw [h1]
    simp [h0]
  refine ⟨?_, ?_, ?_, ?_⟩
  · have hmem : PipelineEvent.classifyUsername env.inputIds ∈ (stageUsername env).1 := by
      unfold stageUsername
      cases env.userResult with
      | thrown m => simp
      | value v => cases v <;> simp
    rw [htr, htb1]
    exact List.mem_cons_of_mem _ hmem
  · intro u hu
    have h2 : (stageUsername env).1 =
        PipelineEvent.classifyUsername env.inputIds :: (stagePassword env).1 := by
      simp [stageUsername, hu]
    have hmem : PipelineEvent.classifyPassword env.inputIds ∈ (stagePassword env).1 := by
      unfold stagePassword
      cases env.passResult with
      | thrown m => simp
      | value v => cases v <;> simp
    rw [htr, htb1, h2]
    exact List.mem_cons_of_mem _ (List.mem_cons_of_mem _ hmem)
  · intro u p hu hp hb
    have h2 : (stageUsername env).1 =
        PipelineEvent.classifyUsername env.inputIds :: (stagePassword env).1 := by
      simp [stageUsername, hu]
    have h3 : (stagePassword env).1 =
        PipelineEvent.classifyPassword env.inputIds :: (stageLogin env).1 := by
      simp [stagePassword, hp]
    have hmem : PipelineEvent.classifyLogin env.buttons ∈ (stageLogin env).1 := by
      unfold stageLogin
      rw [hb]
      cases env.loginResult with
      | thrown m => simp
      | value v =>
        cases v with
        | none => simp
        | some l => cases env.clickLogin <;> simp
    rw [htr, htb1, h2, h3]
    exact List.mem_cons_of_mem _ (List.mem_cons_of_mem _ (List.mem_cons_of_mem _ hmem))
  · intro u p l hu hp hb hl hc ha
    have h2 : (stageUsername env).1 =
        PipelineEvent.classifyUsername env.inputIds :: (stagePassword env).1 := by
      simp [stageUsername, hu]
    have h3 : (stagePassword env).1 =
        PipelineEvent.classifyPassword env.inputIds :: (stageLogin env).1 := by
      simp [stagePassword, hp]
    have h4 : (stageLogin env).1 = PipelineEvent.classifyLogin env.buttons ::
        PipelineEvent.clickLoginBtn :: (stageFactura env).1 := by
      simp [stageLogin, hb, hl, hc]
    have hmem : PipelineEvent.classifyFactura env.anchors ∈ (stageFactura env).1 := by
      unfold stageFactura
      rw [ha]
      cases env.facturaResult with
      | thrown m => simp
      | value v =>
        cases v with
        | none => simp
        | some f => cases env.clickFactura <;> simp
    rw [htr, htb1, h2, h3, h4]
    simp [hmem]

/-- Witness for the C2 amended theorem at a concrete environment in which
every candidate snapshot is empty: all four resolver invocations still
occur, each with the empty snapshot. -/
theorem resolver_invoked_even_when_empty_witness :
    PipelineEvent.classifyUsername [] ∈ (invoiceAgentRun envAllEmpty).trace ∧
    PipelineEvent.classifyPassword [] ∈ (invoiceAgentRun envAllEmpty).trace ∧
    PipelineEvent.classifyLogin [] ∈ (invoiceAgentRun envAllEmpty).trace ∧
    PipelineEvent.classifyFactura [] ∈ (invoiceAgentRun envAllEmpty).trace :=
  ⟨(resolver_invoked_even_when_empty envAllEmpty rfl rfl).1,
   (resolver_invoked_even_when_empty envAllEmpty rfl rfl).2.1 "x" rfl,
   (resolver_invoked_even_when_empty envAllEmpty rfl rfl).2.2.1 "x" "y" rfl rfl rfl,
   (resolver_invoked_even_when_empty envAllEmpty rfl rfl).2.2.2 "x" "y" "Ingresar"
     rfl rfl rfl rfl rfl rfl⟩

/-- C4 counterexample: a missing invoice-link resolution result is not
tolerated — the run throws `No factura button detected by LLM.`, the table
is never extracted, and the agent returns no invoice record. -/
theorem invoiceLink_missing_resolution_cex :
    (invoiceAgentRun envFacturaMissing).caughtError = some "No factura button detected by LLM." ∧
    (invoiceAgentRun envFacturaMissing).result = none ∧
    PipelineEvent.classifyTable ∉ (invoiceAgentRun envFacturaMissing).trace := by decide

/-- C4 amended: a missing resolution result aborts the run for the
username-field, password-field, login-control and invoice-link steps alike;
the pipeline continues in degraded form only when anchor gathering itself
fails, in which case the invoice-link resolver is never invoked and the run
can still complete. -/
theorem resolution_failure_policy (env : RunEnv)
    (h0 : env.hasUrl = true) (h1 : env.nav = CallRes.value ()) :
    (env.userResult = CallRes.value none →
      (invoiceAgentRun env).caughtError = some "No username input ID found in the analysis result." ∧
      (invoiceAgentRun env).result = none) ∧
    (∀ u, env.userResult = CallRes.value (some u) → env.passResult = CallRes.value none →
      (invoiceAgentRun env).caughtError = some "No password input ID found in the analysis result." ∧
      (invoiceAgentRun env).result = none) ∧
    (∀ u p, env.userResult = CallRes.value (some u) → env.passResult = CallRes.value (some p) →
      env.buttonsSuccess = true → env.loginResult = CallRes.value none →
      (invoiceAgentRun env).caughtError = some "No login button detected by LLM." ∧
      (invoiceAgentRun env).result = none) ∧
    (∀ u p l, env.userResult = CallRes.value (some u) → env.passResult = CallRes.value (some p) →
      env.buttonsSuccess = true → env.loginResult = CallRes.value (some l) →
      env.clickLogin = CallRes.value () → env.anchorsSuccess = true →
      env.facturaResult = CallRes.value none →
      (invoiceAgentRun env).caughtError = some "No factura button detected by LLM." ∧
      (invoiceAgentRun env).result = none ∧
      PipelineEvent.classifyTable ∉ (invoiceAgentRun env).trace) ∧
    (∀ u p l rec, env.userResult = CallRes.value (some u) → env.passResult = CallRes.value (some p) →
      env.buttonsSuccess = true → env.loginResult = CallRes.value (some l) →
      env.clickLogin = CallRes.value () → env.anchorsSuccess = false →
      env.tableSuccess = true → env.tableResult = CallRes.value (some rec) →
      env.dowloadFile = false →
      (invoiceAgentRun env).result = some rec ∧
      (invoiceAgentRun env).caughtError = none) := by
  refine ⟨?_, ?_, ?_, ?_, ?_⟩
  · intro hu
    simp [invoiceAgentRun, tryBlock, stageUsername, h0, h1, hu]
  · intro u hu hp
    simp [invoiceAgentRun, tryBlock, stageUsername, stagePassword, h0, h1, hu, hp]
  · intro u p hu hp hb hl
    simp [invoiceAgentRun, tryBlock, stageUsername, stagePassword, stageLogin,
      h0, h1, hu, hp, hb, hl]
  · intro u p l hu hp hb hl hc ha hf
    simp [invoiceAgentRun, tryBlock, stageUsername, stagePassword, stageLogin,
      stageFactura, h0, h1, hu, hp, hb, hl, hc, ha, hf]
  · intro u p l rec hu hp hb hl hc ha ht htr hd
    simp [invoiceAgentRun, tryBlock, stageUsername, stagePassword, stageLogin,
      stageFactura, stageTable, stageDownload, h0, h1, hu, hp, hb, hl, hc, ha, ht, htr, hd]

/-- Witness for the C4 amended theorem: with anchor gathering failing, the
run still completes and returns the invoice record (degraded continuation),
and with a missing username result the run aborts. -/
theorem resolution_failure_policy_witness :
    (invoiceAgentRun envAnchorsFail).result = some ⟨"2025-01-01", "100", "F001"⟩ ∧
    (invoiceAgentRun envAnchorsFail).caughtError = none :=
  (resolution_failure_policy envAnchorsFail rfl rfl).2.2.2.2
    "user-input" "pass-input" "Ingresar" ⟨"2025-01-01", "100", "F001"⟩
    rfl rfl rfl rfl rfl rfl rfl rfl rfl

/-- C5: on every run environment — hence after any combination of step
failures — the finally block has closed the browser before `invoiceAgent`
returns. -/
theorem browser_closed_on_all_paths (env : RunEnv) :
    (invoiceAgentRun env).browserClosed = true := by
  cases h : tryBlock env with
  | mk tr r => cases r <;> simp [invoiceAgentRun, h]

/-- C10: whenever a step inside the try block throws, `invoiceAgent`
catches the error (it is recorded, not propagated — the function still
returns an `AgentOutcome`) and its returned value is `none`, modelling the
JS `undefined` the caller observes in place of an invoice record. -/
theorem invoiceAgent_error_returns_none (env : RunEnv) (e : String)
    (h : (invoiceAgentRun env).caughtError = some e) :
    (invoiceAgentRun env).result = none := by
  cases htb : tryBlock env with
  | mk tr r =>
    cases r with
    | error m => simp [invoiceAgentRun, htb]
    | ok v => simp [invoiceAgentRun, htb] at h
/-- Witness for C10: a navigation failure is caught and the agent returns
no record. -/
theorem invoiceAgent_error_returns_none_witness :
    (invoiceAgentRun envNavFail).result = none :=
  invoiceAgent_error_returns_none envNavFail "net::ERR_NAME_NOT_RESOLVED" rfl

/-! ## Command parsing (src/unnamed/part_000, parseCommand) -/

/-- JS `String.prototype.split` with a one-character separator: every
occurrence splits, with empty pieces kept (`"".split(c)` is `[""]`). -/
def splitOnChar (c : Char) : List Char → List (List Char)
  | [] => [[]]
  | x :: xs =>
    let r := splitOnChar c xs
    if x = c then [] :: r else (x :: r.headD []) :: r.tail

/-- JS `Array.prototype.join` with a one-character separator. -/
def joinWithChar (c : Char) : List (List Char) → List Char
  | [] => []
  | [s] => s
  | s :: rest => s ++ c :: joinWithChar c rest

/-- JS `String.prototype.includes` for a single character. -/
def includesChar (c : Char) (s : List Char) : Bool :=
  s.any (fun x => x = c)

/-- JS `String.prototype.replace` with a one-character pattern: only the
first occurrence is replaced. -/
def replaceFirstOcc (c : Char) (r : List Char) : List Char → List Char
  | [] => []
  | x :: xs => if x = c then r ++ xs else x :: replaceFirstOcc c r xs

/-- JS `String.prototype.trim`: strip whitespace from both ends. -/
def trimChars (s : List Char) : List Char :=
  ((s.dropWhile Char.isWhitespace).reverse.dropWhile Char.isWhitespace).reverse

/-- Assignment `params[key] = value` on a JS object modelled as an ordered
association list: an existing key is overwritten in place, a new key is
appended. -/
def setObjectKey (ps : List (List Char × List Char)) (k v : List Char) :
    List (List Char × List Char) :=
  if ps.any (fun p => p.1 = k) then
    ps.map (fun p => if p.1 = k then (k, v) else p)
  else ps ++ [(k, v)]

/-- Result of `parseCommand`. -/
structure ParsedCommand where
  command : List Char
  params : List (List Char × List Char)
deriving DecidableEq, Repr

/-- `parseCommand(text)` (lines 229-243): trim, split on spaces, strip the
first `/` from the first part, and for every later part containing a colon
split it on colons, taking the first piece as key and rejoining the rest
with colons as value. -/
def parseCommand (text : List Char) : ParsedCommand :=
  let parts := splitOnChar ' ' (trimChars text)
  let command := replaceFirstOcc '/' [] (parts.headD [])
  let params := (parts.drop 1).foldl
    (fun acc param =>
      if includesChar ':' param then
        match splitOnChar ':' param with
        | [] => acc
        | key :: valueParts => setObjectKey acc key (joinWithChar ':' valueParts)
      else acc) []
  ⟨command, params⟩

/-- A split result is never the empty list of pieces. -/
theorem splitOnChar_ne_nil (c : Char) (s : List Char) : splitOnChar c s ≠ [] := by
  cases s with
  | nil => simp [splitOnChar]
  | cons x xs => by_cases hx : x = c <;> simp [splitOnChar, hx]

/-- Splitting a string that does not contain the separator yields the
string itself as the single piece. -/
theorem splitOnChar_of_not_mem {c : Char} {s : List Char} (h : c ∉ s) :
    splitOnChar c s = [s] := by
  induction s with
  | nil => rfl
  | cons x xs ih =>
    simp only [List.mem_cons, not_or] at h
    have hx : ¬x = c := fun he => h.1 he.symm
    simp [splitOnChar, ih h.2, hx]

/-- Splitting at the first separator occurrence: the piece before it comes
out first, followed by the split of the remainder. -/
theorem splitOnChar_append {c : Char} {a : List Char} (b : List Char) (h : c ∉ a) :
    splitOnChar c (a ++ c :: b) = a :: splitOnChar c b := by
  induction a with
  | nil => simp [splitOnChar]
  | cons x xs ih =>
    simp only [List.mem_cons, not_or] at h
    have hx : ¬x = c := fun he => h.1 he.symm
    rw [List.cons_append]
    simp only [splitOnChar, ih h.2]
    simp [hx]

/-- Rejoining a split with the same separator restores the string, so the
tail pieces of a first-colon split rejoined with colons give back exactly
the original remainder. -/
theorem joinWithChar_splitOnChar (c : Char) (s : List Char) :
    joinWithChar c (splitOnChar c s) = s := by
  induction s with
  | nil => rfl
  | cons x xs ih =>
    cases hr : splitOnChar c xs with
    | nil => exact absurd hr (splitOnChar_ne_nil c xs)
    | cons rh rt =>
      rw [hr] at ih
      by_cases hx : x = c
      · subst hx
        simp only [splitOnChar, hr, if_pos rfl]
        simp [joinWithChar, ih]
      · simp only [splitOnChar, hr, if_neg hx]
        cases rt with
        | nil =>
          simp only [joinWithChar] at ih ⊢
          simp [ih]
        | cons t1 ts =>
          simp only [joinWithChar] at ih ⊢
          simp [ih]

/-- C6: `parseCommand "/getInvoice username:alice password:s3cr3t"` yields
command `getInvoice` with `username ↦ alice` and `password ↦ s3cr3t`; and in
general a `key:value` token is split on its first colon only — the key is
the part before the first colon and the value is everything after it, any
further colons preserved inside the value. -/
theorem parseCommand_spec :
    (parseCommand "/getInvoice username:alice password:s3cr3t".toList =
      ⟨"getInvoice".toList,
       [("username".toList, "alice".toList), ("password".toList, "s3cr3t".toList)]⟩) ∧
    (∀ cmd key value : List Char,
      trimChars (('/' :: cmd) ++ ' ' :: (key ++ ':' :: value)) =
        ('/' :: cmd) ++ ' ' :: (key ++ ':' :: value) →
      ' ' ∉ cmd → ' ' ∉ key → ':' ∉ key → ' ' ∉ value →
      parseCommand (('/' :: cmd) ++ ' ' :: (key ++ ':' :: value)) = ⟨cmd, [(key, value)]⟩) := by
  constructor
  · decide
  · intro cmd key value htrim hc hk1 hk2 hv
    have hsp : ' ' ∉ ('/' :: cmd) := by
      simp only [List.mem_cons, not_or]
      exact ⟨by decide, hc⟩
    have h1 : splitOnChar ' ' (('/' :: cmd) ++ ' ' :: (key ++ ':' :: value)) =
        ('/' :: cmd) :: splitOnChar ' ' (key ++ ':' :: value) :=
      splitOnChar_append _ hsp
    have hnotin : ' ' ∉ key ++ ':' :: value := by
      simp only [List.mem_append, List.mem_cons, not_or]
      exact ⟨hk1, by decide, hv⟩
    have h2 : splitOnChar ' ' (key ++ ':' :: value) = [key ++ ':' :: value] :=
      splitOnChar_of_not_mem hnotin
    have hinc : includesChar ':' (key ++ ':' :: value) = true := by
      simp [includesChar, List.any_append]
    have h3 : splitOnChar ':' (key ++ ':' :: value) = key :: splitOnChar ':' value :=
      splitOnChar_append _ hk2
    unfold parseCommand
    rw [htrim, h1, h2]
    simp only [List.headD, List.drop, List.foldl, hinc, if_pos, h3,
      joinWithChar_splitOnChar, setObjectKey]
    simp [replaceFirstOcc]

/-- Witness for C6: a value containing colons keeps them after the first
colon of the token. -/
theorem parseCommand_spec_witness :
    parseCommand (('/' :: "send".toList) ++ ' ' :: ("token".toList ++ ':' :: "a:b:c".toList)) =
      ⟨"send".toList, [("token".toList, "a:b:c".toList)]⟩ :=
  parseCommand_spec.2 "send".toList "token".toList "a:b:c".toList
    (by decide) (by decide) (by decide) (by decide) (by decide)

/-! ## Audio sessions and message routing (src/unnamed/part_000) -/

/-- The 5-minute session TTL (`5 * 60 * 1000` ms). -/
def sessionTTLms : Nat := 5 * 60 * 1000

/-- One entry of the `audioSessions` map:
`{ waitingForAudio, startTime, params }` (params omitted, they are only
echoed back). -/
structure AudioSession where
  waitingForAudio : Bool
  startTime : Nat
deriving DecidableEq, Repr

/-- An inbound Telegram message for one chat: a qualifying audio payload
(voice, audio, or a document with an `audio/` mime type), a text message, or
anything else. -/
inductive InMsg where
  | audio
  | textMsg (content : List Char)
  | otherMsg
deriving DecidableEq, Repr

/-- Externally visible actions the message handler performs, in order. -/
inductive BotAction where
  | expiredNotice
  | deleteSession
  | dispatchTranscription
  | cancelledNotice
  | helpMessage
  | dispatchGetInvoice (params : List (List Char × List Char))
  | armAudioSession
  | unknownCommand (cmd : List Char)
deriving DecidableEq, Repr

/-- `processAudio` (lines 132-139 of the handler file): a missing or
non-waiting session returns without acting; otherwise the session is deleted
first and only then is the transcription work dispatched. -/
def processAudio (store : Option AudioSession) :
    Option AudioSession × List BotAction :=
  match store with
  | none => (none, [])
  | some s =>
    if s.waitingForAudio then
      (none, [BotAction.deleteSession, BotAction.dispatchTranscription])
    else (some s, [])

/-- The command path (lines 287-317): without an active audio session, a
non-text or non-slash message gets the help message; a slash command is
parsed and dispatched to `getInvoice` or `getUserInfo` (which arms a fresh
`AwaitingAudio` session with `startTime = now`), any other verb gets the
unknown-command message. -/
def commandPath (store : Option AudioSession) (msg : InMsg) (now : Nat) :
    Option AudioSession × List BotAction :=
  match msg with
  | InMsg.textMsg content =>
    if content.headD ' ' = '/' then
      let parsed := parseCommand content
      if parsed.command = "getInvoice".toList then
        (store, [BotAction.dispatchGetInvoice parsed.params])
      else if parsed.command = "getUserInfo".toList then
        (some { waitingForAudio := true, startTime := now }, [BotAction.armAudioSession])
      else (store, [BotAction.unknownCommand parsed.command])
    else (store, [BotAction.helpMessage])
  | _ => (store, [BotAction.helpMessage])

/-- The polling message handler (lines 246-317) for one chat: with an
active waiting session, expiry (strictly more than the TTL elapsed) deletes
the session and emits the expiry notice; otherwise an audio message goes to
`processAudio`, and any other message cancels the session; without an
active session the command path runs. -/
def handleMessage (store : Option AudioSession) (msg : InMsg) (now : Nat) :
    Option AudioSession × List BotAction :=
  match store with
  | some session =>
    if session.waitingForAudio then
      if sessionTTLms < now - session.startTime then (none, [BotAction.expiredNotice])
      else
        match msg with
        | InMsg.audio => processAudio (some session)
        | InMsg.textMsg _ => (none, [BotAction.cancelledNotice])
        | InMsg.otherMsg => (none, [BotAction.cancelledNotice])
    else commandPath store msg now
  | none => commandPath none msg now

/-- One entry's treatment by the periodic sweep (lines 320-334): the entry
is deleted exactly when strictly more than the TTL has elapsed. -/
def sweepEntry (now : Nat) (store : Option AudioSession) : Option AudioSession :=
  match store with
  | some s => if sessionTTLms < now - s.startTime then none else some s
  | none => none

/-! ## C3 and C9 theorems -/

/-- C3 counterexample: at observation time exactly `startTime + 300s` the
session is still present — the sweep keeps it (the expiry comparison is
strict) and the message handler still treats it as live, consuming and
dispatching instead of expiring. -/
theorem session_present_at_exact_ttl_cex :
    sweepEntry sessionTTLms (some ⟨true, 0⟩) = some ⟨true, 0⟩ ∧
    handleMessage (some ⟨true, 0⟩) InMsg.audio sessionTTLms =
      (none, [BotAction.deleteSession, BotAction.dispatchTranscription]) := by decide

/-- C3 amended: a session created in `AwaitingAudio` mode at time `t` is
deleted at any expiry-evaluating observation (a sweep tick, or message
handling for that chat, which emits the expiry notice) occurring strictly
after `t + 300s`; at exactly `t + 300s` it is still live. -/
theorem session_absent_strictly_after_ttl (s : AudioSession) (now : Nat) (msg : InMsg)
    (h : s.startTime + sessionTTLms < now) :
    sweepEntry now (some s) = none ∧
    (s.waitingForAudio = true →
      handleMessage (some s) msg now = (none, [BotAction.expiredNotice])) := by
  have hx : sessionTTLms < now - s.startTime := by omega
  refine ⟨?_, ?_⟩
  · simp [sweepEntry, hx]
  · intro hw
    cases msg <;> simp [handleMessage, hw, hx]

/-- Witness for the C3 amended theorem one millisecond after the TTL. -/
theorem session_absent_strictly_after_ttl_witness :
    sweepEntry 300001 (some ⟨true, 0⟩) = none ∧
    handleMessage (some ⟨true, 0⟩) InMsg.audio 300001 = (none, [BotAction.expiredNotice]) :=
  ⟨(session_absent_strictly_after_ttl ⟨true, 0⟩ 300001 InMsg.audio (by decide)).1,
   (session_absent_strictly_after_ttl ⟨true, 0⟩ 300001 InMsg.audio (by decide)).2 rfl⟩

/-- C9: a qualifying audio message arriving within the TTL consumes the
session — deletion happens before the transcription dispatch (the action
order of `processAudio`) and the store ends empty — and a second qualifying
message immediately after finds no session and is routed through the
ordinary command path, which answers with the help message. -/
theorem audio_session_consumed_once (s : AudioSession) (t1 t2 : Nat)
    (hw : s.waitingForAudio = true) (h1 : t1 - s.startTime ≤ sessionTTLms) :
    handleMessage (some s) InMsg.audio t1 =
      (none, [BotAction.deleteSession, BotAction.dispatchTranscription]) ∧
    handleMessage (handleMessage (some s) InMsg.audio t1).1 InMsg.audio t2 =
      commandPath none InMsg.audio t2 ∧
    handleMessage (handleMessage (some s) InMsg.audio t1).1 InMsg.audio t2 =
      (none, [BotAction.helpMessage]) := by
  have hx : ¬sessionTTLms < t1 - s.startTime := not_lt.mpr h1
  have hfirst : handleMessage (some s) InMsg.audio t1 =
      (none, [BotAction.deleteSession, BotAction.dispatchTranscription]) := by
    simp [handleMessage, hw, hx, processAudio]
  refine ⟨hfirst, ?_, ?_⟩ <;> rw [hfirst] <;> simp [handleMessage, commandPath]

/-- Witness for C9 with a concrete fresh session and two prompt messages. -/
theorem audio_session_consumed_once_witness :
    handleMessage (some ⟨true, 0⟩) InMsg.audio 100 =
      (none, [BotAction.deleteSession, BotAction.dispatchTranscription]) ∧
    handleMessage (handleMessage (some ⟨true, 0⟩) InMsg.audio 100).1 InMsg.audio 200 =
      commandPath none InMsg.audio 200 ∧
    handleMessage (handleMessage (some ⟨true, 0⟩) InMsg.audio 100).1 InMsg.audio 200 =
      (none, [BotAction.helpMessage]) :=
  audio_session_consumed_once ⟨true, 0⟩ 100 200 rfl (by decide)

/-! ## Subtitle rendering (convertToSRT / convertToVTT) -/

/-- Decimal rendering of a number, as JS string interpolation produces. -/
def natToChars (n : Nat) : List Char := Nat.toDigits 10 n

/-- JS `String.prototype.padStart(n, '0')`. -/
def padStartZero (n : Nat) (s : List Char) : List Char :=
  List.replicate (n - s.length) '0' ++ s

/-- One timed transcription segment.  The source fields are `start`, `end`
and `text` with times as seconds; times are modelled in whole milliseconds
(`endTime` stands for the reserved-word field `end`). -/
structure Segment where
  start : Nat
  endTime : Nat
  text : List Char
deriving DecidableEq, Repr

/-- `formatSRTTime`: `HH:MM:SS,mmm` with hours unreduced (floor of total
hours), minutes/seconds/milliseconds taken from the UTC clock fields. -/
def formatSRTTime (ms : Nat) : List Char :=
  let hours := padStartZero 2 (natToChars (ms / 3600000))
  let minutes := padStartZero 2 (natToChars (ms / 60000 % 60))
  let secs := padStartZero 2 (natToChars (ms / 1000 % 60))
  let milli := padStartZero 3 (natToChars (ms % 1000))
  hours ++ ':' :: (minutes ++ ':' :: (secs ++ ',' :: milli))

/-- `formatVTTTime`: the SRT time with its first (and only) comma replaced
by a dot. -/
def formatVTTTime (ms : Nat) : List Char :=
  replaceFirstOcc ',' ['.'] (formatSRTTime ms)

/-- One SRT block: index line, time line, text line, trailing newline. -/
def srtBlock (i : Nat) (s : Segment) : List Char :=
  natToChars (i + 1) ++ '\n' ::
    (formatSRTTime s.start ++ " --> ".toList ++ formatSRTTime s.endTime ++ '\n' ::
      (s.text ++ ['\n']))

/-- The indexed map of `convertToSRT` (`segments.map((segment, index) => ...)`),
written with an explicit counter. -/
def srtBlocksAux (k : Nat) : List Segment → List (List Char)
  | [] => []
  | s :: rest => srtBlock k s :: srtBlocksAux (k + 1) rest

/-- The SRT block list of a segment list. -/
def srtBlocks (segments : List Segment) : List (List Char) :=
  srtBlocksAux 0 segments

/-- `convertToSRT(segments)` (lines 554-562): a null/undefined segment list
renders the placeholder; otherwise one block per segment joined with
newlines.  JS treats an empty array as truthy, so only the absent case
renders the placeholder. -/
def convertToSRT : Option (List Segment) → List Char
  | none => "Timestamps not available".toList
  | some segments => joinWithChar '\n' (srtBlocks segments)

/-- One VTT block appended by the `forEach` of `convertToVTT`. -/
def vttBlock (s : Segment) : List Char :=
  formatVTTTime s.start ++ " --> ".toList ++ formatVTTTime s.endTime ++ '\n' ::
    (s.text ++ ['\n', '\n'])

/-- `convertToVTT(segments)` (lines 564-574): a null/undefined segment list
renders the header plus placeholder; otherwise the header followed by the
concatenated blocks. -/
def convertToVTT : Option (List Segment) → List Char
  | none => "WEBVTT\n\nTimestamps not available".toList
  | some segments => "WEBVTT\n\n".toList ++ (segments.map vttBlock).flatten

/-! ## C8 theorems -/

/-- C8 counterexample: for an empty (but present) segment list neither
converter renders the placeholder — SRT renders the empty string and VTT
only the header, unlike the absent-list case. -/
theorem converters_empty_list_cex :
    convertToSRT (some []) = [] ∧
    convertToVTT (some []) = "WEBVTT\n\n".toList ∧
    convertToSRT (some []) ≠ convertToSRT none ∧
    convertToVTT (some []) ≠ convertToVTT none := by decide

/-- Length of the indexed SRT block construction. -/
theorem srtBlocksAux_length (k : Nat) (segs : List Segment) :
    (srtBlocksAux k segs).length = segs.length := by
  induction segs generalizing k with
  | nil => rfl
  | cons s rest ih => simp [srtBlocksAux, ih]

/-- Block `i` of the indexed SRT block construction started at `k` is the
block of segment `i` with index `k + i`. -/
theorem srtBlocksAux_getD (k : Nat) (segs : List Segment) (i : Nat) (h : i < segs.length) :
    (srtBlocksAux k segs).getD i [] = srtBlock (k + i) (segs.get ⟨i, h⟩) := by
  induction segs generalizing k i with
  | nil => simp at h
  | cons s rest ih =>
    cases i with
    | zero => simp [srtBlocksAux]
    | succ j =>
      simp only [srtBlocksAux, List.getD_cons_succ, List.get]
      rw [ih (k + 1) j (by simpa using h)]
      ring_nf

/-- C8 amended: both converters produce exactly one block per segment
(count preserved) and every block embeds its segment's text verbatim; the
placeholder text is rendered only for an absent (null) segment list, while
a present-but-empty list yields zero blocks (empty SRT output, header-only
VTT output). -/
theorem converters_preserve_segments (segs : List Segment) :
    (srtBlocks segs).length = segs.length ∧
    (segs.map vttBlock).length = segs.length ∧
    (∀ i (h : i < segs.length), ∃ pre,
      (srtBlocks segs).getD i [] = pre ++ ((segs.get ⟨i, h⟩).text ++ ['\n'])) ∧
    (∀ i (h : i < segs.length), ∃ pre,
      (segs.map vttBlock).getD i [] = pre ++ ((segs.get ⟨i, h⟩).text ++ ['\n', '\n'])) ∧
    convertToSRT (some segs) = joinWithChar '\n' (srtBlocks segs) ∧
    convertToVTT (some segs) = "WEBVTT\n\n".toList ++ (segs.map vttBlock).flatten ∧
    convertToSRT none = "Timestamps not available".toList ∧
    convertToVTT none = "WEBVTT\n\nTimestamps not available".toList := by
  refine ⟨srtBlocksAux_length 0 segs, by simp, ?_, ?_, rfl, rfl, rfl, rfl⟩
  · intro i h
    refine ⟨natToChars (i + 1) ++ '\n' ::
      (formatSRTTime (segs.get ⟨i, h⟩).start ++ " --> ".toList ++
        formatSRTTime (segs.get ⟨i, h⟩).endTime ++ ['\n']), ?_⟩
    rw [srtBlocks, srtBlocksAux_getD 0 segs i h]
    simp [srtBlock, List.append_assoc]
  · intro i h
    refine ⟨formatVTTTime (segs.get ⟨i, h⟩).start ++ " --> ".toList ++
      formatVTTTime (segs.get ⟨i, h⟩).endTime ++ ['\n'], ?_⟩
    have hm : (segs.map vttBlock).getD i [] = vttBlock (segs.get ⟨i, h⟩) := by
      rw [List.getD_eq_getElem _ _ (by simpa using h)]
      simp
    rw [hm]
    simp [vttBlock, List.append_assoc]

/-- Witness for the C8 amended theorem at a one-segment list. -/
theorem converters_preserve_segments_witness :
    (srtBlocks [⟨0, 1500, "hola".toList⟩]).length = [(⟨0, 1500, "hola".toList⟩ : Segment)].length ∧
    ([(⟨0, 1500, "hola".toList⟩ : Segment)].map vttBlock).length =
      [(⟨0, 1500, "hola".toList⟩ : Segment)].length ∧
    (∀ i (h : i < [(⟨0, 1500, "hola".toList⟩ : Segment)].length), ∃ pre,
      (srtBlocks [⟨0, 1500, "hola".toList⟩]).getD i [] =
        pre ++ (([(⟨0, 1500, "hola".toList⟩ : Segment)].get ⟨i, h⟩).text ++ ['\n'])) ∧
    (∀ i (h : i < [(⟨0, 1500, "hola".toList⟩ : Segment)].length), ∃ pre,
      ([(⟨0, 1500, "hola".toList⟩ : Segment)].map vttBlock).getD i [] =
        pre ++ (([(⟨0, 1500, "hola".toList⟩ : Segment)].get ⟨i, h⟩).text ++ ['\n', '\n'])) ∧
    convertToSRT (some [⟨0, 1500, "hola".toList⟩]) =
      joinWithChar '\n' (srtBlocks [⟨0, 1500, "hola".toList⟩]) ∧
    convertToVTT (some [⟨0, 1500, "hola".toList⟩]) =
      "WEBVTT\n\n".toList ++ ([(⟨0, 1500, "hola".toList⟩ : Segment)].map vttBlock).flatten ∧
    convertToSRT none = "Timestamps not available".toList ∧
    convertToVTT none = "WEBVTT\n\nTimestamps not available".toList :=
  converters_preserve_segments [⟨0, 1500, "hola".toList⟩]
